import Mathlib

/-!
Verification development for the contract-builder utility
(`src/compile/com.py`, function `compile_contract`).

The Python function fills two string templates (a contract source file and a
package manifest), writes them into a fresh temporary directory, invokes the
external `aptos move compile` tool as a subprocess, checks for two expected
output artifacts, and returns them base64-encoded.  Every failure is re-raised
at the function boundary as a single exception whose message is prefixed with
"Unexpected error: ".

Shallow embedding choices:
* The filesystem is an association list from absolute path to file data
  (`Fs`); text files and binary files are distinguished by `FileData`.
* The external tool is an oracle (`ToolBehavior`): the set of files it writes
  (relative to the package directory) and its outcome — success, a non-zero
  exit (`CalledProcessError`, carrying captured stdout and stderr), or a
  launch failure (any other exception while invoking the subprocess).
* Python's `tempfile.TemporaryDirectory` context manager is modelled by
  `cleanupTemp`, which removes every path under the temporary directory on
  every exit path; directory existence is modelled as the presence of entries
  under the directory's path prefix.
* Python exceptions become `Except BuildError`; the single uniform failure
  type (`Exception` with a message in the source, `BuildError` in the spec)
  is `BuildError`, a structure carrying the message string.
* Python's `dict` result with keys `module` and `metadata` becomes the
  structure `BuildResult` with exactly those two fields.
* Python's `str.lower` is modelled by `lowerStr` (Python's Unicode
  lower-casing restricted to its ASCII behaviour).
-/

/-- A byte, as produced by reading a file in binary mode. -/
abbrev Byte := Nat

/-- File contents: text (written via `open(path, 'w')`) or raw bytes
(as read via `open(path, 'rb')`). -/
inductive FileData where
  | text (s : String)
  | binary (bs : List Byte)
deriving DecidableEq, Repr

/-- Raw bytes of a file's contents (text is irrelevant here: only
tool-written binary artifacts are ever read back by the program). -/
def FileData.toBytes : FileData → List Byte
  | .text s => s.toUTF8.toList.map (fun b => b.toNat)
  | .binary bs => bs

/-- The filesystem: a finite map from absolute path to file data,
represented as an association list (later writes shadow earlier ones). -/
abbrev Fs := List (String × FileData)

/-- Write (create or overwrite) the file at path `p`. -/
def writeFs (fs : Fs) (p : String) (d : FileData) : Fs :=
  (p, d) :: fs.filter (fun e => !(e.1 == p))

/-- Look up the file at path `p` (`os.path.exists` + read). -/
def lookupFs (fs : Fs) (p : String) : Option FileData :=
  (fs.find? (fun e => e.1 == p)).map (fun e => e.2)

/-- `startsWithL s pre` : the char list `pre` is a prefix of `s`. -/
def startsWithL : List Char → List Char → Bool
  | _, [] => true
  | [], _ :: _ => false
  | c :: cs, d :: ds => c == d && startsWithL cs ds

/-- `containsSubL s sub` : `sub` occurs contiguously inside `s`. -/
def containsSubL : List Char → List Char → Bool
  | [], sub => startsWithL [] sub
  | c :: cs, sub => startsWithL (c :: cs) sub || containsSubL cs sub

/-- String prefix test (by character list). -/
def hasPrefixB (pre s : String) : Bool := startsWithL s.data pre.data

/-- String substring test (by character list). -/
def containsSub (s sub : String) : Bool := containsSubL s.data sub.data

/-- Exit of the `with tempfile.TemporaryDirectory() as temp_dir:` block:
every file under the temporary directory is removed, on every exit path
(normal return or exception). -/
def cleanupTemp (fs : Fs) (temp_dir : String) : Fs :=
  fs.filter (fun e => !(hasPrefixB (temp_dir ++ "/") e.1))

/-- Splits a character list at newline characters (accumulator holds the
current line reversed). -/
def splitLinesAux : List Char → List Char → List (List Char)
  | [], acc => [acc.reverse]
  | '\n' :: rest, acc => acc.reverse :: splitLinesAux rest []
  | c :: rest, acc => splitLinesAux rest (c :: acc)

/-- The lines of a string (split at every newline). -/
def linesOf (s : String) : List String :=
  (splitLinesAux s.data []).map (fun cs => String.mk cs)

/-- Number of lines of a string that are not empty. -/
def numNonblankLines (s : String) : Nat :=
  ((linesOf s).filter (fun l => !(l == ""))).length

/-- The base64 alphabet (RFC 4648), as used by Python's `base64.b64encode`. -/
def b64chars : List Char :=
  "ABCDEFGHIJKLMNOPQRSTUVWXYZabcdefghijklmnopqrstuvwxyz0123456789+/".data

/-- The base64 digit for a 6-bit value. -/
def b64char (n : Nat) : Char := b64chars.getD n 'A'

/-- Standard base64 encoding of a byte list, with `=` padding, as produced
by `base64.b64encode(...).decode('utf-8')`. -/
def b64encode : List Byte → String
  | [] => ""
  | [a] =>
    String.mk [b64char (a / 4), b64char (a % 4 * 16), '=', '=']
  | [a, b] =>
    String.mk [b64char (a / 4), b64char (a % 4 * 16 + b / 16),
               b64char (b % 16 * 4), '=']
  | a :: b :: c :: rest =>
    String.mk [b64char (a / 4), b64char (a % 4 * 16 + b / 16),
               b64char (b % 16 * 4 + c / 64), b64char (c % 64)]
      ++ b64encode rest

/-- `CONTRACT_TEMPLATE.format(address=..., module_name=..., struct_name=...)`:
the generated Move source file.  (`\x7b`/`\x7d` are the literal braces of the
Python template after `{{`/`}}` escaping.) -/
def CONTRACT_TEMPLATE (address module_name struct_name : String) : String :=
  "\nmodule " ++ address ++ "::" ++ module_name ++ " \x7b\n    struct "
    ++ struct_name ++ " \x7b\x7d\n\x7d\n"

/-- `MOVE_TOML_TEMPLATE.format(package_name=..., module_name=..., address=...)`:
the generated package manifest. -/
def MOVE_TOML_TEMPLATE (package_name module_name address : String) : String :=
  "\n[package]\nname = \"" ++ package_name ++ "\"\nversion = \"0.0.1\"\n\n"
    ++ "[dependencies]\nAptosFramework = \x7b git = \"https://github.com/aptos-labs/aptos-core.git\", subdir = \"aptos-move/framework/aptos-framework/\", rev = \"main\" \x7d\n\n"
    ++ "[addresses]\n" ++ module_name ++ " = \"" ++ address ++ "\"\n"

/-- `module_name = token_name` (used verbatim). -/
def module_name (token_name : String) : String := token_name

/-- `struct_name = token_name` (identical to the module name). -/
def struct_name (token_name : String) : String := token_name

/-- ASCII lower-casing of one character, as `str.lower` does on ASCII
letters (this embedding restricts Python's Unicode lower-casing to its
ASCII behaviour). -/
def lowerChar (c : Char) : Char :=
  if 65 ≤ c.toNat ∧ c.toNat ≤ 90 then Char.ofNat (c.toNat + 32) else c

/-- `token_name.lower()`, character by character. -/
def lowerStr (s : String) : String := String.mk (s.data.map lowerChar)

/-- `package_name = f"{token_name.lower()}_package"`. -/
def package_name (token_name : String) : String :=
  lowerStr token_name ++ "_package"

/-- `contract_path = os.path.join(temp_dir, "sources", f"{module_name}.move")`. -/
def contract_path (temp_dir token_name : String) : String :=
  temp_dir ++ "/sources/" ++ module_name token_name ++ ".move"

/-- `toml_path = os.path.join(temp_dir, "Move.toml")`. -/
def toml_path (temp_dir : String) : String := temp_dir ++ "/Move.toml"

/-- `module_path = os.path.join(build_dir, "bytecode_modules", f"{module_name}.mv")`
with `build_dir = os.path.join(temp_dir, "build", package_name)`. -/
def module_path (temp_dir token_name : String) : String :=
  temp_dir ++ "/build/" ++ package_name token_name ++ "/bytecode_modules/"
    ++ module_name token_name ++ ".mv"

/-- `metadata_path = os.path.join(build_dir, "package-metadata.bcs")`. -/
def metadata_path (temp_dir token_name : String) : String :=
  temp_dir ++ "/build/" ++ package_name token_name ++ "/package-metadata.bcs"

/-- Outcome of the `subprocess.run(['aptos', 'move', 'compile', ...])` call:
success (exit 0), `CalledProcessError` (non-zero exit; `output` is the
captured standard output `e.output`, `stderrOut` the captured standard
error `e.stderr`), or any other exception while launching/running it. -/
inductive ToolOutcome where
  | success
  | nonzeroExit (output stderrOut : String)
  | launchError (msg : String)
deriving DecidableEq, Repr

/-- Oracle for the external compiler toolchain: the files it writes under
the package directory (paths relative to `temp_dir`) and how it exits. -/
structure ToolBehavior where
  files : List (String × List Byte)
  outcome : ToolOutcome
deriving Repr

/-- The result dictionary `{'module': ..., 'metadata': ...}`: exactly the
two keys, both base64 strings. -/
structure BuildResult where
  module : String
  metadata : String
deriving DecidableEq, Repr

/-- The uniform failure type seen by the caller (`Exception(message)` in the
source, `BuildError` in the spec), carrying a human-readable message. -/
structure BuildError where
  message : String
deriving DecidableEq, Repr

/-- The filesystem after the two template files are written (steps up to and
including the `Move.toml` write, before the subprocess is invoked). -/
def fsAfterWrites (fs0 : Fs) (temp_dir address token_name : String) : Fs :=
  writeFs
    (writeFs fs0 (contract_path temp_dir token_name)
      (.text (CONTRACT_TEMPLATE address (module_name token_name)
        (struct_name token_name))))
    (toml_path temp_dir)
    (.text (MOVE_TOML_TEMPLATE (package_name token_name)
      (module_name token_name) address))

/-- The filesystem after the subprocess ran: whatever files the tool wrote
(relative to the package directory `temp_dir`) are added, whatever its
outcome. -/
def fsAfterTool (fs0 : Fs) (temp_dir : String) (tool : ToolBehavior)
    (address token_name : String) : Fs :=
  (tool.files.map (fun e => (temp_dir ++ "/" ++ e.1, FileData.binary e.2))).foldl
    (fun fs e => writeFs fs e.1 e.2)
    (fsAfterWrites fs0 temp_dir address token_name)

/-- The body of `compile_contract` from the subprocess call on, before the
outermost `except Exception` handler: the error string is the message of the
intermediate `raise Exception(...)`.  Mirrors the source's order of checks:
non-zero exit, launch failure, missing module file, missing metadata file,
then the successful read-and-encode of both artifacts. -/
def compile_contract_result (fs : Fs) (temp_dir : String)
    (tool : ToolBehavior) (token_name : String) : Except String BuildResult :=
  match tool.outcome with
  | .nonzeroExit output _ =>
    .error ("Compilation failed: " ++ output)
  | .launchError msg =>
    .error ("Unexpected error during compilation: " ++ msg)
  | .success =>
    match lookupFs fs (module_path temp_dir token_name),
          lookupFs fs (metadata_path temp_dir token_name) with
    | none, _ =>
      .error ("Compiled module file not found at "
        ++ module_path temp_dir token_name)
    | some _, none =>
      .error ("Metadata file not found at "
        ++ metadata_path temp_dir token_name)
    | some d1, some d2 =>
      .ok { module := b64encode d1.toBytes, metadata := b64encode d2.toBytes }

/-- `compile_contract(address, token_name)`: returns the call's result
(`BuildResult` on success, the raised `BuildError` otherwise) together with
the final filesystem.  The outermost handler wraps every error message with
`"Unexpected error: "`; the temporary directory is removed on every exit
path. -/
def compile_contract (fs0 : Fs) (temp_dir : String) (tool : ToolBehavior)
    (address token_name : String) : Except BuildError BuildResult × Fs :=
  let fs := fsAfterTool fs0 temp_dir tool address token_name
  (match compile_contract_result fs temp_dir tool token_name with
   | .ok v => .ok v
   | .error m => .error ⟨"Unexpected error: " ++ m⟩,
   cleanupTemp fs temp_dir)

theorem startsWithL_self (l : List Char) : startsWithL l l = true := by
  induction l with
  | nil => rfl
  | cons c cs ih => simp [startsWithL, ih]

theorem containsSubL_self (l : List Char) : containsSubL l l = true := by
  cases l with
  | nil => rfl
  | cons c cs => simp [containsSubL, startsWithL_self]

theorem containsSubL_append (a b : List Char) :
    containsSubL (a ++ b) b = true := by
  induction a with
  | nil => simpa using containsSubL_self b
  | cons c cs ih => simp [containsSubL, ih]

theorem containsSub_append (pre s : String) :
    containsSub (pre ++ s) s = true := by
  simp [containsSub, String.data_append, containsSubL_append]

theorem lookupFs_writeFs_self (fs : Fs) (p : String) (d : FileData) :
    lookupFs (writeFs fs p d) p = some d := by
  simp [lookupFs, writeFs, List.find?]

theorem find?_filter_ne (fs : Fs) (p q : String) (h : p ≠ q) :
    (fs.filter (fun e => !(e.1 == q))).find? (fun e => e.1 == p)
      = fs.find? (fun e => e.1 == p) := by
  induction fs with
  | nil => rfl
  | cons e rest ih =>
    by_cases hq : e.1 = q
    · have hp : (e.1 == p) = false := by
        rw [beq_eq_false_iff_ne]
        intro hh
        exact h (hh.symm.trans hq)
      have hq' : (e.1 == q) = true := by simp [hq]
      simp [List.filter_cons, List.find?_cons, hq', hp, ih]
    · have hq' : (e.1 == q) = false := beq_eq_false_iff_ne.mpr hq
      simp only [List.filter_cons, hq', Bool.not_false, if_true]
      rw [List.find?_cons, List.find?_cons]
      cases hp : (e.1 == p) with
      | true => rfl
      | false => exact ih

theorem lookupFs_writeFs_ne (fs : Fs) (p q : String) (d : FileData)
    (h : p ≠ q) : lookupFs (writeFs fs q d) p = lookupFs fs p := by
  simp only [lookupFs, writeFs, List.find?]
  have hqp : (q == p) = false := by
    simp [beq_eq_false_iff_ne]
    exact fun hh => h hh.symm
  simp [hqp, find?_filter_ne fs p q h]

theorem contract_path_ne_toml_path (temp_dir token_name : String) :
    contract_path temp_dir token_name ≠ toml_path temp_dir := by
  intro h
  have hl := congrArg String.length h
  have h9 : ("/sources/" : String).length = 9 := rfl
  have h5 : (".move" : String).length = 5 := rfl
  have h10 : ("/Move.toml" : String).length = 10 := rfl
  simp only [contract_path, toml_path, module_name, String.length_append,
    h9, h5, h10] at hl
  omega

theorem startsWithL_append_self (a b : List Char) :
    startsWithL (a ++ b) a = true := by
  induction a with
  | nil => cases b <;> rfl
  | cons c cs ih => simp [startsWithL, ih]

theorem hasPrefixB_append (p s : String) : hasPrefixB p (p ++ s) = true := by
  simp [hasPrefixB, String.data_append, startsWithL_append_self]

/-- C1: when the external tool succeeds and both expected output files exist,
`compile_contract` returns exactly the two-key mapping whose `module` and
`metadata` values are the base64 encodings of the bytecode file's and
metadata file's raw bytes (the `BuildResult` structure has exactly those two
fields, one per dictionary key). -/
theorem compile_contract_success_b64 (fs0 : Fs) (temp_dir : String)
    (tool : ToolBehavior) (address token_name : String) (d1 d2 : FileData)
    (hx : tool.outcome = .success)
    (h1 : lookupFs (fsAfterTool fs0 temp_dir tool address token_name)
      (module_path temp_dir token_name) = some d1)
    (h2 : lookupFs (fsAfterTool fs0 temp_dir tool address token_name)
      (metadata_path temp_dir token_name) = some d2) :
    (compile_contract fs0 temp_dir tool address token_name).1
      = .ok { module := b64encode d1.toBytes,
              metadata := b64encode d2.toBytes } := by
  simp [compile_contract, compile_contract_result, hx, h1, h2]

/-- C1 witness (Scenario A): address `0x1`, token `MyCoin`, tool exits 0 and
writes both expected files empty, so the call returns
`{module := "", metadata := ""}`. -/
theorem compile_contract_success_b64_witness :
    (compile_contract [] "/tmp/t"
      ⟨[("build/mycoin_package/bytecode_modules/MyCoin.mv", []),
        ("build/mycoin_package/package-metadata.bcs", [])], .success⟩
      "0x1" "MyCoin").1 = .ok { module := "", metadata := "" } :=
  compile_contract_success_b64 [] "/tmp/t"
    ⟨[("build/mycoin_package/bytecode_modules/MyCoin.mv", []),
      ("build/mycoin_package/package-metadata.bcs", [])], .success⟩
    "0x1" "MyCoin" (.binary []) (.binary []) rfl rfl rfl

/-- C2: when the subprocess exits non-zero, `compile_contract` fails with a
`BuildError` whose message embeds the captured output (the message is the
fixed wrapper text followed by the output, so the output occurs inside it). -/
theorem compile_contract_nonzero_embeds_output (fs0 : Fs)
    (temp_dir : String) (tool : ToolBehavior)
    (address token_name out se : String)
    (hx : tool.outcome = .nonzeroExit out se) :
    (compile_contract fs0 temp_dir tool address token_name).1
      = .error ⟨"Unexpected error: " ++ ("Compilation failed: " ++ out)⟩
    ∧ containsSub ("Unexpected error: " ++ ("Compilation failed: " ++ out))
        out = true := by
  constructor
  · simp [compile_contract, compile_contract_result, hx]
  · have h := containsSub_append
      ("Unexpected error: " ++ "Compilation failed: ") out
    simpa [String.append_assoc] using h

/-- C2 witness (Scenario B): the tool exits 1 with output `"syntax error"`;
the raised error's message contains `"syntax error"`. -/
theorem compile_contract_nonzero_embeds_output_witness :
    (compile_contract [] "/tmp/t" ⟨[], .nonzeroExit "syntax error" ""⟩
      "0x1" "MyCoin").1
      = .error ⟨"Unexpected error: Compilation failed: syntax error"⟩
    ∧ containsSub "Unexpected error: Compilation failed: syntax error"
        "syntax error" = true :=
  compile_contract_nonzero_embeds_output [] "/tmp/t"
    ⟨[], .nonzeroExit "syntax error" ""⟩ "0x1" "MyCoin" "syntax error" "" rfl

/-- C3: after a reported-successful compile, a missing bytecode file or a
missing metadata file makes `compile_contract` fail with a `BuildError`
naming the missing path (the bytecode file is checked first). -/
theorem compile_contract_missing_artifact_error (fs0 : Fs)
    (temp_dir : String) (tool : ToolBehavior) (address token_name : String)
    (hx : tool.outcome = .success) :
    (lookupFs (fsAfterTool fs0 temp_dir tool address token_name)
        (module_path temp_dir token_name) = none →
      (compile_contract fs0 temp_dir tool address token_name).1
        = .error ⟨"Unexpected error: "
            ++ ("Compiled module file not found at "
                ++ module_path temp_dir token_name)⟩)
    ∧ (∀ d, lookupFs (fsAfterTool fs0 temp_dir tool address token_name)
        (module_path temp_dir token_name) = some d →
      lookupFs (fsAfterTool fs0 temp_dir tool address token_name)
        (metadata_path temp_dir token_name) = none →
      (compile_contract fs0 temp_dir tool address token_name).1
        = .error ⟨"Unexpected error: "
            ++ ("Metadata file not found at "
                ++ metadata_path temp_dir token_name)⟩) := by
  constructor
  · intro h1
    simp [compile_contract, compile_contract_result, hx, h1]
  · intro d h1 h2
    simp [compile_contract, compile_contract_result, hx, h1, h2]

/-- C3 witness (Scenario C): the tool exits 0 but writes nothing; the call
fails with a `BuildError` naming the missing bytecode path. -/
theorem compile_contract_missing_artifact_error_witness :
    (compile_contract [] "/tmp/t" ⟨[], .success⟩ "0x1" "MyCoin").1
      = .error ⟨"Unexpected error: Compiled module file not found at /tmp/t/build/mycoin_package/bytecode_modules/MyCoin.mv"⟩ :=
  (compile_contract_missing_artifact_error [] "/tmp/t" ⟨[], .success⟩
    "0x1" "MyCoin" rfl).1 rfl

/-- C4: on every outcome, the final filesystem returned by
`compile_contract` holds no file under the temporary build directory: the
scoped `TemporaryDirectory` removes the directory and all its contents on
every exit path. -/
theorem compile_contract_temp_dir_removed (fs0 : Fs) (temp_dir : String)
    (tool : ToolBehavior) (address token_name : String) :
    ((compile_contract fs0 temp_dir tool address token_name).2).all
      (fun e => !(hasPrefixB (temp_dir ++ "/") e.1)) = true := by
  have hsnd : (compile_contract fs0 temp_dir tool address token_name).2
      = cleanupTemp (fsAfterTool fs0 temp_dir tool address token_name)
          temp_dir := rfl
  rw [hsnd, cleanupTemp]
  simp only [List.all_eq_true]
  intro x hx
  exact (List.mem_filter.mp hx).2

/-- C5: the module name is `token_name` verbatim, the struct name equals the
module name, and the package name is `token_name` lower-cased with
`_package` appended; in particular `"Coin"` yields `"coin_package"`. -/
theorem compile_contract_derived_names (token_name : String) :
    module_name token_name = token_name
    ∧ struct_name token_name = module_name token_name
    ∧ package_name token_name = lowerStr token_name ++ "_package"
    ∧ package_name "Coin" = "coin_package" :=
  ⟨rfl, rfl, rfl, by decide⟩

/-- C6 counterexample: at `address="0x1"`, `token_name="MyCoin"`, the
generated source-file content is not two lines: split at newlines it has
five lines, three of them non-blank. -/
theorem contract_template_not_two_line :
    ¬ (numNonblankLines (CONTRACT_TEMPLATE "0x1" "MyCoin" "MyCoin") = 2
       ∨ (linesOf (CONTRACT_TEMPLATE "0x1" "MyCoin" "MyCoin")).length = 2) := by
  decide

/-- C6 (amended): `compile_contract` writes the generated source file at
`sources/<module_name>.move` inside the build directory, and its content is
the fixed template — a module declaration scoped to `address::module_name`
wrapping one empty struct declaration named `struct_name` — spanning three
non-blank lines (leading and trailing newlines make five lines in all). -/
theorem compile_contract_writes_source_file (fs0 : Fs)
    (temp_dir address token_name : String) :
    lookupFs (fsAfterWrites fs0 temp_dir address token_name)
        (contract_path temp_dir token_name)
      = some (.text (CONTRACT_TEMPLATE address (module_name token_name)
          (struct_name token_name)))
    ∧ numNonblankLines (CONTRACT_TEMPLATE "0x1" "MyCoin" "MyCoin") = 3
    ∧ (linesOf (CONTRACT_TEMPLATE "0x1" "MyCoin" "MyCoin")).length = 5 := by
  refine ⟨?_, by decide, by decide⟩
  simp only [fsAfterWrites]
  rw [lookupFs_writeFs_ne _ _ _ _ (contract_path_ne_toml_path temp_dir token_name),
    lookupFs_writeFs_self]

/-- C7: `compile_contract` writes the manifest at the build-directory root
(`Move.toml`), with the rendered manifest template as content; at
`address="0x1"`, `token_name="Coin"` that content's lines include the
package-name declaration, the fixed version `0.0.1`, the pinned
AptosFramework dependency (git URL, subdir, rev), and the named-address
binding `Coin = "0x1"`. -/
theorem compile_contract_writes_manifest (fs0 : Fs)
    (temp_dir address token_name : String) :
    lookupFs (fsAfterWrites fs0 temp_dir address token_name)
        (toml_path temp_dir)
      = some (.text (MOVE_TOML_TEMPLATE (package_name token_name)
          (module_name token_name) address))
    ∧ ((linesOf (MOVE_TOML_TEMPLATE (package_name "Coin")
          (module_name "Coin") "0x1")).contains
        "name = \"coin_package\"" = true
      ∧ (linesOf (MOVE_TOML_TEMPLATE (package_name "Coin")
          (module_name "Coin") "0x1")).contains
        "version = \"0.0.1\"" = true
      ∧ (linesOf (MOVE_TOML_TEMPLATE (package_name "Coin")
          (module_name "Coin") "0x1")).contains
        "AptosFramework = \x7b git = \"https://github.com/aptos-labs/aptos-core.git\", subdir = \"aptos-move/framework/aptos-framework/\", rev = \"main\" \x7d"
          = true
      ∧ (linesOf (MOVE_TOML_TEMPLATE (package_name "Coin")
          (module_name "Coin") "0x1")).contains
        "Coin = \"0x1\"" = true) := by
  refine ⟨?_, by decide, by decide, by decide, by decide⟩
  simp only [fsAfterWrites]
  exact lookupFs_writeFs_self _ _ _

/-- C8: every failure the model can produce — non-zero subprocess exit,
subprocess launch error, or a missing output artifact — is caught at the
single call boundary and surfaces as the one uniform failure type
`BuildError`, whose message preserves the original diagnostic (the captured
output for a compile failure, the original exception text otherwise). -/
theorem compile_contract_uniform_errors (fs0 : Fs) (temp_dir : String)
    (tool : ToolBehavior) (address token_name : String) :
    (∀ out se, tool.outcome = .nonzeroExit out se →
      (compile_contract fs0 temp_dir tool address token_name).1
        = .error ⟨"Unexpected error: " ++ ("Compilation failed: " ++ out)⟩)
    ∧ (∀ m, tool.outcome = .launchError m →
      (compile_contract fs0 temp_dir tool address token_name).1
        = .error ⟨"Unexpected error: "
            ++ ("Unexpected error during compilation: " ++ m)⟩)
    ∧ (∀ e, (compile_contract fs0 temp_dir tool address token_name).1
          = .error e →
        ∃ m, e.message = "Unexpected error: " ++ m) := by
  refine ⟨?_, ?_, ?_⟩
  · intro out se hx
    simp [compile_contract, compile_contract_result, hx]
  · intro m hx
    simp [compile_contract, compile_contract_result, hx]
  · intro e he
    rcases tool with ⟨files, outc⟩
    cases outc with
    | nonzeroExit out se =>
      have h2 : (compile_contract fs0 temp_dir ⟨files, .nonzeroExit out se⟩
          address token_name).1
          = .error ⟨"Unexpected error: " ++ ("Compilation failed: " ++ out)⟩ :=
        rfl
      rw [h2] at he
      obtain rfl := (Except.error.inj he).symm
      exact ⟨"Compilation failed: " ++ out, rfl⟩
    | launchError m =>
      have h2 : (compile_contract fs0 temp_dir ⟨files, .launchError m⟩
          address token_name).1
          = .error ⟨"Unexpected error: "
              ++ ("Unexpected error during compilation: " ++ m)⟩ := rfl
      rw [h2] at he
      obtain rfl := (Except.error.inj he).symm
      exact ⟨"Unexpected error during compilation: " ++ m, rfl⟩
    | success =>
      cases hm : lookupFs (fsAfterTool fs0 temp_dir ⟨files, .success⟩
          address token_name) (module_path temp_dir token_name) with
      | none =>
        have h2 : (compile_contract fs0 temp_dir ⟨files, .success⟩
            address token_name).1
            = .error ⟨"Unexpected error: "
                ++ ("Compiled module file not found at "
                    ++ module_path temp_dir token_name)⟩ := by
          simp [compile_contract, compile_contract_result, hm]
        rw [h2] at he
        obtain rfl := (Except.error.inj he).symm
        exact ⟨"Compiled module file not found at "
          ++ module_path temp_dir token_name, rfl⟩
      | some d1 =>
        cases hk : lookupFs (fsAfterTool fs0 temp_dir ⟨files, .success⟩
            address token_name) (metadata_path temp_dir token_name) with
        | none =>
          have h2 : (compile_contract fs0 temp_dir ⟨files, .success⟩
              address token_name).1
              = .error ⟨"Unexpected error: "
                  ++ ("Metadata file not found at "
                      ++ metadata_path temp_dir token_name)⟩ := by
            simp [compile_contract, compile_contract_result, hm, hk]
          rw [h2] at he
          obtain rfl := (Except.error.inj he).symm
          exact ⟨"Metadata file not found at "
            ++ metadata_path temp_dir token_name, rfl⟩
        | some d2 =>
          have h2 : (compile_contract fs0 temp_dir ⟨files, .success⟩
              address token_name).1
              = .ok { module := b64encode d1.toBytes,
                      metadata := b64encode d2.toBytes } := by
            simp [compile_contract, compile_contract_result, hm, hk]
          rw [h2] at he
          exact Except.noConfusion he

/-- C8 witness: a subprocess launch failure (e.g. the external tool binary
is missing) surfaces as a `BuildError` wrapping the original exception
text. -/
theorem compile_contract_uniform_errors_witness :
    (compile_contract [] "/tmp/t" ⟨[], .launchError "No such file"⟩
      "0x1" "MyCoin").1
      = .error ⟨"Unexpected error: Unexpected error during compilation: No such file"⟩ :=
  (compile_contract_uniform_errors [] "/tmp/t" ⟨[], .launchError "No such file"⟩
    "0x1" "MyCoin").2.1 "No such file" rfl

/-- C9: whatever the failure cause, the raised error's message begins with
`"Unexpected error: "` — the outermost handler re-wraps every exception,
including the already-wrapped compile-failure and missing-file errors. -/
theorem compile_contract_error_prefix (fs0 : Fs) (temp_dir : String)
    (tool : ToolBehavior) (address token_name : String) (e : BuildError)
    (he : (compile_contract fs0 temp_dir tool address token_name).1
      = .error e) :
    hasPrefixB "Unexpected error: " e.message = true := by
  rcases tool with ⟨files, outc⟩
  cases outc with
  | nonzeroExit out se =>
    have h2 : (compile_contract fs0 temp_dir ⟨files, .nonzeroExit out se⟩
        address token_name).1
        = .error ⟨"Unexpected error: " ++ ("Compilation failed: " ++ out)⟩ :=
      rfl
    rw [h2] at he
    obtain rfl := (Except.error.inj he).symm
    exact hasPrefixB_append _ _
  | launchError m =>
    have h2 : (compile_contract fs0 temp_dir ⟨files, .launchError m⟩
        address token_name).1
        = .error ⟨"Unexpected error: "
            ++ ("Unexpected error during compilation: " ++ m)⟩ := rfl
    rw [h2] at he
    obtain rfl := (Except.error.inj he).symm
    exact hasPrefixB_append _ _
  | success =>
    cases hm : lookupFs (fsAfterTool fs0 temp_dir ⟨files, .success⟩
        address token_name) (module_path temp_dir token_name) with
    | none =>
      have h2 : (compile_contract fs0 temp_dir ⟨files, .success⟩
          address token_name).1
          = .error ⟨"Unexpected error: "
              ++ ("Compiled module file not found at "
                  ++ module_path temp_dir token_name)⟩ := by
        simp [compile_contract, compile_contract_result, hm]
      rw [h2] at he
      obtain rfl := (Except.error.inj he).symm
      exact hasPrefixB_append _ _
    | some d1 =>
      cases hk : lookupFs (fsAfterTool fs0 temp_dir ⟨files, .success⟩
          address token_name) (metadata_path temp_dir token_name) with
      | none =>
        have h2 : (compile_contract fs0 temp_dir ⟨files, .success⟩
            address token_name).1
            = .error ⟨"Unexpected error: "
                ++ ("Metadata file not found at "
                    ++ metadata_path temp_dir token_name)⟩ := by
          simp [compile_contract, compile_contract_result, hm, hk]
        rw [h2] at he
        obtain rfl := (Except.error.inj he).symm
        exact hasPrefixB_append _ _
      | some d2 =>
        have h2 : (compile_contract fs0 temp_dir ⟨files, .success⟩
            address token_name).1
            = .ok { module := b64encode d1.toBytes,
                    metadata := b64encode d2.toBytes } := by
          simp [compile_contract, compile_contract_result, hm, hk]
        rw [h2] at he
        exact Except.noConfusion he

/-- C9 witness: a compile failure with output `"boom"` surfaces as
`"Unexpected error: Compilation failed: boom"`, which carries the uniform
prefix. -/
theorem compile_contract_error_prefix_witness :
    hasPrefixB "Unexpected error: "
      (BuildError.mk "Unexpected error: Compilation failed: boom").message
      = true :=
  compile_contract_error_prefix [] "/tmp/u" ⟨[], .nonzeroExit "boom" "warn"⟩
    "0x2" "Tok" ⟨"Unexpected error: Compilation failed: boom"⟩ rfl

/-- C10: on a non-zero subprocess exit the raised message is built from the
captured standard output alone (`e.output`); the captured standard error
stream never reaches the message — two runs differing only in stderr give
identical results. -/
theorem compile_contract_stderr_unused (fs0 : Fs) (temp_dir : String)
    (files : List (String × List Byte)) (address token_name out se1 se2 : String) :
    (compile_contract fs0 temp_dir ⟨files, .nonzeroExit out se1⟩
        address token_name).1
      = .error ⟨"Unexpected error: " ++ ("Compilation failed: " ++ out)⟩
    ∧ compile_contract fs0 temp_dir ⟨files, .nonzeroExit out se1⟩
        address token_name
      = compile_contract fs0 temp_dir ⟨files, .nonzeroExit out se2⟩
        address token_name :=
  ⟨rfl, rfl⟩
